import Mathlib

/-!
Verification of the spotify-mcp integration layer.

This file shallowly embeds the repository's Python source:
  * `DeviceResolver` (src/spotify_mcp/device_resolver.py): an in-memory
    case-insensitive map from device names to provider device ids.
  * `AsyncSpotify` (src/spotify_mcp/client.py): an async facade over a
    synchronous Spotify client; each wrapped method dispatches the
    synchronous call to a worker (`asyncio.to_thread`) and validates the
    raw JSON result into a pydantic model.
  * the MCP tool handlers (src/spotify_mcp/server.py): stateless
    request/response endpoints that call exactly one facade operation.

The synchronous spotipy client and the pydantic validators are external
libraries; they are modelled as abstract function parameters
(`SyncClient`, `Validators`).  Raised exceptions are modelled with
`Except SpotifyError`.
-/

/-- Model of a raised upstream exception (spotipy `SpotifyException` or a
pydantic validation error): an HTTP status and a message. -/
structure SpotifyError where
  http_status : Int
  msg : String
  deriving DecidableEq

/-- Raw JSON payloads exchanged with the provider. -/
inductive Json where
  | null : Json
  | bool : Bool → Json
  | int : Int → Json
  | str : String → Json
  | arr : List Json → Json
  | obj : List (String × Json) → Json

/-- Python truthiness of a JSON value: `None`, `False`, `0`, `""`, `[]`
and `{}` are falsy, everything else is truthy. -/
def Json.isTruthy : Json → Bool
  | Json.null => false
  | Json.bool b => b
  | Json.int n => n != 0
  | Json.str s => s != ""
  | Json.arr xs => !xs.isEmpty
  | Json.obj fs => !fs.isEmpty

/-- Models Python `str.lower()` (character-wise case folding, as applied
to device names by the resolver). -/
def pyLower (s : String) : String :=
  String.mk (s.data.map Char.toLower)

/-- The device registry of `DeviceResolver.__init__`: the Python dict
`_device_map : dict[str, str]` is embedded as its lookup function. -/
structure DeviceResolver where
  _device_map : String → Option String

/-- A freshly constructed resolver (`DeviceResolver.__init__`): the
device map is empty. -/
def DeviceResolver.new : DeviceResolver :=
  ⟨fun _ => none⟩

/-- `set_device(name, device_id)`: `self._device_map[name.lower()] = device_id`. -/
def DeviceResolver.set_device (r : DeviceResolver) (name device_id : String) : DeviceResolver :=
  ⟨fun k => if k = pyLower name then some device_id else r._device_map k⟩

/-- `resolve(device_name)`: returns `None` when `device_name` is falsy
(`None` or the empty string), otherwise `self._device_map.get(device_name.lower())`
(dict `.get` never raises; a missing key yields `None`). -/
def DeviceResolver.resolve (r : DeviceResolver) (device_name : Option String) : Option String :=
  match device_name with
  | none => none
  | some s => if s = "" then none else r._device_map (pyLower s)

/-- `invalidate()`: `self._device_map.clear()`. -/
def DeviceResolver.invalidate (_r : DeviceResolver) : DeviceResolver :=
  ⟨fun _ => none⟩

/-- Applies a sequence of `set_device` calls (name, device_id) in order. -/
def applyOps (ops : List (String × String)) (r : DeviceResolver) : DeviceResolver :=
  ops.foldl (fun acc p => acc.set_device p.1 p.2) r

/-- Spec-side comparator for the last-write-wins claim: the identifier of
the most recent element of `ops` whose case-folded name equals `k`
(`k` is already folded).  Written from the spec's words, to be compared
with `DeviceResolver.resolve`. -/
def specLastWrite : List (String × String) → String → Option String
  | [], _ => none
  | p :: rest, k =>
    match specLastWrite rest k with
    | some v => some v
    | none => if pyLower p.1 = k then some p.2 else none

theorem applyOps_cons (p : String × String) (rest : List (String × String)) (r : DeviceResolver) :
    applyOps (p :: rest) r = applyOps rest (r.set_device p.1 p.2) :=
  rfl

theorem set_device_map (r : DeviceResolver) (name device_id : String) (k : String) :
    (r.set_device name device_id)._device_map k
      = if k = pyLower name then some device_id else r._device_map k :=
  rfl

theorem specLastWrite_cons (p : String × String) (rest : List (String × String)) (k : String) :
    specLastWrite (p :: rest) k
      = match specLastWrite rest k with
        | some v => some v
        | none => if pyLower p.1 = k then some p.2 else none :=
  rfl

theorem applyOps_map (ops : List (String × String)) (r : DeviceResolver) (k : String) :
    (applyOps ops r)._device_map k
      = match specLastWrite ops k with
        | some v => some v
        | none => r._device_map k := by
  induction ops generalizing r with
  | nil => rfl
  | cons p rest ih =>
    rw [applyOps_cons, ih (r.set_device p.1 p.2), specLastWrite_cons]
    cases hsw : specLastWrite rest k with
    | some v => rfl
    | none =>
      rw [set_device_map]
      by_cases hk : pyLower p.1 = k
      · rw [if_pos hk.symm, if_pos hk]
      · rw [if_neg (fun h => hk h.symm), if_neg hk]

theorem specLastWrite_eq_none (ops : List (String × String)) (k : String)
    (h : ∀ p ∈ ops, pyLower p.1 ≠ k) : specLastWrite ops k = none := by
  induction ops with
  | nil => rfl
  | cons p rest ih =>
    have hrest : specLastWrite rest k = none :=
      ih fun q hq => h q (List.mem_cons_of_mem p hq)
    have hp : pyLower p.1 ≠ k := h p (List.mem_cons_self p rest)
    simp [specLastWrite, hrest, hp]

/-- The synchronous spotipy client (external library): one abstract
function per operation the repository calls, returning raw JSON
(or, for `current_user_saved_tracks_contains`, a list of booleans) or a
raised exception.  A response of `None` is `Json.null`. -/
structure SyncClient where
  current_playback : Option String → Option String → Except SpotifyError Json
  devices : Unit → Except SpotifyError Json
  start_playback : Option String → Option String → Option (List String) → Option Json → Option Int → Except SpotifyError Json
  pause_playback : Option String → Except SpotifyError Json
  add_to_queue : String → Option String → Except SpotifyError Json
  volume : Int → Option String → Except SpotifyError Json
  transfer_playback : String → Bool → Except SpotifyError Json
  search : String → Int → Int → String → Option String → Except SpotifyError Json
  current_user_top_tracks : Int → Int → String → Except SpotifyError Json
  user_playlist_create : String → String → Bool → Bool → String → Except SpotifyError Json
  current_user_saved_tracks : Int → Int → Option String → Except SpotifyError Json
  current_user_saved_tracks_contains : Option (List String) → Except SpotifyError (List Bool)
  current_user_saved_tracks_add : Option (List String) → Except SpotifyError Json
  current_user_saved_tracks_delete : Option (List String) → Except SpotifyError Json
  current_user_recently_played : Int → Option Int → Option Int → Except SpotifyError Json
  episode : String → Option String → Except SpotifyError Json
  show_episodes : String → Int → Int → Option String → Except SpotifyError Json

/-- The pydantic `model_validate` calls (external library), one abstract
validator per response schema used by the facade: each turns a raw JSON
payload into a validated instance or raises a validation error. -/
structure Validators where
  PlaybackState : Json → Except SpotifyError Json
  DevicesResponse : Json → Except SpotifyError Json
  SearchResponse : Json → Except SpotifyError Json
  TopTracksResponse : Json → Except SpotifyError Json
  SimplifiedPlaylist : Json → Except SpotifyError Json
  SavedTracksResponse : Json → Except SpotifyError Json
  RecentlyPlayedResponse : Json → Except SpotifyError Json
  Episode : Json → Except SpotifyError Json
  ShowEpisodesResponse : Json → Except SpotifyError Json

/-- `await asyncio.to_thread(f, ...)`: runs the blocking call on a worker
thread and returns its result (or re-raises its exception) to the awaiting
coroutine; the value produced is exactly the value of the call. -/
def toThread {α : Type} (f : Unit → α) : α :=
  f ()

namespace AsyncSpotify

/-- `AsyncSpotify.current_playback`: dispatches the sync call off-thread,
then `PlaybackState.model_validate(result) if result else None`. -/
def current_playback (V : Validators) (c : SyncClient) (market additional_types : Option String) : Except SpotifyError (Option Json) :=
  (toThread fun _ => c.current_playback market additional_types).bind fun result =>
    if result.isTruthy then (V.PlaybackState result).map some else Except.ok none

/-- `AsyncSpotify.devices`: sync call off-thread, then `DevicesResponse.model_validate`. -/
def devices (V : Validators) (c : SyncClient) : Except SpotifyError Json :=
  (toThread fun _ => c.devices ()).bind V.DevicesResponse

/-- `AsyncSpotify.start_playback`: pass-through (the sync call returns `None`). -/
def start_playback (c : SyncClient) (device_id context_uri : Option String) (uris : Option (List String)) (offset : Option Json) (position_ms : Option Int) : Except SpotifyError Json :=
  toThread fun _ => c.start_playback device_id context_uri uris offset position_ms

/-- `pause_playback` is not explicitly wrapped by `AsyncSpotify`; the
server reaches it through the generic `__getattr__` fallback, which
forwards the named sync method off-thread with no response validation. -/
def pause_playback (c : SyncClient) (device_id : Option String) : Except SpotifyError Json :=
  toThread fun _ => c.pause_playback device_id

/-- `AsyncSpotify.add_to_queue`: pass-through. -/
def add_to_queue (c : SyncClient) (uri : String) (device_id : Option String) : Except SpotifyError Json :=
  toThread fun _ => c.add_to_queue uri device_id

/-- `AsyncSpotify.volume`: pass-through. -/
def volume (c : SyncClient) (volume_percent : Int) (device_id : Option String) : Except SpotifyError Json :=
  toThread fun _ => c.volume volume_percent device_id

/-- `AsyncSpotify.transfer_playback`: pass-through. -/
def transfer_playback (c : SyncClient) (device_id : String) (force_play : Bool) : Except SpotifyError Json :=
  toThread fun _ => c.transfer_playback device_id force_play

/-- `AsyncSpotify.search`: sync call off-thread, then `SearchResponse.model_validate`. -/
def search (V : Validators) (c : SyncClient) (q : String) (limit offset : Int) (type : String) (market : Option String) : Except SpotifyError Json :=
  (toThread fun _ => c.search q limit offset type market).bind V.SearchResponse

/-- `AsyncSpotify.current_user_top_tracks`: sync call off-thread, then validation. -/
def current_user_top_tracks (V : Validators) (c : SyncClient) (limit offset : Int) (time_range : String) : Except SpotifyError Json :=
  (toThread fun _ => c.current_user_top_tracks limit offset time_range).bind V.TopTracksResponse

/-- `AsyncSpotify.user_playlist_create`: sync call off-thread, then validation. -/
def user_playlist_create (V : Validators) (c : SyncClient) (user name : String) (public collaborative : Bool) (description : String) : Except SpotifyError Json :=
  (toThread fun _ => c.user_playlist_create user name public collaborative description).bind V.SimplifiedPlaylist

/-- `AsyncSpotify.current_user_saved_tracks`: sync call off-thread, then validation. -/
def current_user_saved_tracks (V : Validators) (c : SyncClient) (limit offset : Int) (market : Option String) : Except SpotifyError Json :=
  (toThread fun _ => c.current_user_saved_tracks limit offset market).bind V.SavedTracksResponse

/-- `AsyncSpotify.current_user_saved_tracks_contains`: pass-through (list of booleans). -/
def current_user_saved_tracks_contains (c : SyncClient) (tracks : Option (List String)) : Except SpotifyError (List Bool) :=
  toThread fun _ => c.current_user_saved_tracks_contains tracks

/-- `AsyncSpotify.current_user_saved_tracks_add`: pass-through. -/
def current_user_saved_tracks_add (c : SyncClient) (tracks : Option (List String)) : Except SpotifyError Json :=
  toThread fun _ => c.current_user_saved_tracks_add tracks

/-- `AsyncSpotify.current_user_saved_tracks_delete`: pass-through. -/
def current_user_saved_tracks_delete (c : SyncClient) (tracks : Option (List String)) : Except SpotifyError Json :=
  toThread fun _ => c.current_user_saved_tracks_delete tracks

/-- `AsyncSpotify.current_user_recently_played`: sync call off-thread, then validation. -/
def current_user_recently_played (V : Validators) (c : SyncClient) (limit : Int) (after before : Option Int) : Except SpotifyError Json :=
  (toThread fun _ => c.current_user_recently_played limit after before).bind V.RecentlyPlayedResponse

/-- `AsyncSpotify.episode`: sync call off-thread, then validation. -/
def episode (V : Validators) (c : SyncClient) (episode_id : String) (market : Option String) : Except SpotifyError Json :=
  (toThread fun _ => c.episode episode_id market).bind V.Episode

/-- `AsyncSpotify.show_episodes`: sync call off-thread, then validation. -/
def show_episodes (V : Validators) (c : SyncClient) (show_id : String) (limit offset : Int) (market : Option String) : Except SpotifyError Json :=
  (toThread fun _ => c.show_episodes show_id limit offset market).bind V.ShowEpisodesResponse

end AsyncSpotify

/-- `ActionSuccessResponse` (src/spotify_mcp/types.py): `status` is the
literal `"success"` (pydantic default, never overridden by the server)
and `message` is a human-readable description. -/
structure ActionSuccessResponse where
  status : String
  message : String
  deriving DecidableEq

/-- One facade invocation made by a tool handler, recorded with the exact
arguments the handler passes. -/
inductive FacadeCall where
  | start_playback : Option String → Option String → Option (List String) → Option Json → Option Int → FacadeCall
  | pause_playback : Option String → FacadeCall
  | add_to_queue : String → Option String → FacadeCall
  | volume : Int → Option String → FacadeCall
  | transfer_playback : String → Bool → FacadeCall

namespace server

/-- Tool `get_current_playback(market)`: returns
`await spotify_client.current_playback(market=market)` (the facade's
`additional_types` keeps its default `None`). -/
def get_current_playback (V : Validators) (c : SyncClient) (market : Option String) : Except SpotifyError (Option Json) :=
  AsyncSpotify.current_playback V c market none

/-- Tool `start_playback(device_id, context_uri, uris, position_ms)`:
awaits the facade call with these arguments (facade `offset` keeps its
default `None`) and answers `ActionSuccessResponse(message="Playback started")`.
The first component records the facade invocation the handler makes. -/
def start_playback (c : SyncClient) (device_id context_uri : Option String) (uris : Option (List String)) (position_ms : Option Int) : List FacadeCall × Except SpotifyError ActionSuccessResponse :=
  ([FacadeCall.start_playback device_id context_uri uris none position_ms],
   (AsyncSpotify.start_playback c device_id context_uri uris none position_ms).map
     fun _ => ⟨"success", "Playback started"⟩)

/-- Tool `pause_playback(device_id)`: awaits the facade call and answers
`ActionSuccessResponse(message="Playback paused")`. -/
def pause_playback (c : SyncClient) (device_id : Option String) : List FacadeCall × Except SpotifyError ActionSuccessResponse :=
  ([FacadeCall.pause_playback device_id],
   (AsyncSpotify.pause_playback c device_id).map
     fun _ => ⟨"success", "Playback paused"⟩)

/-- Tool `add_to_queue(uri, device_id)`: awaits the facade call and
answers `ActionSuccessResponse(message=f"Added {uri} to queue")`. -/
def add_to_queue (c : SyncClient) (uri : String) (device_id : Option String) : List FacadeCall × Except SpotifyError ActionSuccessResponse :=
  ([FacadeCall.add_to_queue uri device_id],
   (AsyncSpotify.add_to_queue c uri device_id).map
     fun _ => ⟨"success", "Added " ++ uri ++ " to queue"⟩)

/-- Tool `set_volume(volume_percent, device_id)`: awaits the facade call
with `volume_percent` unchanged (no local range check) and answers
`ActionSuccessResponse(message=f"Volume set to {volume_percent}%")`. -/
def set_volume (c : SyncClient) (volume_percent : Int) (device_id : Option String) : List FacadeCall × Except SpotifyError ActionSuccessResponse :=
  ([FacadeCall.volume volume_percent device_id],
   (AsyncSpotify.volume c volume_percent device_id).map
     fun _ => ⟨"success", "Volume set to " ++ toString volume_percent ++ "%"⟩)

/-- Tool `transfer_playback(device_id, force_play)`: awaits the facade
call unconditionally and answers
`ActionSuccessResponse(message=f"Playback transferred to device {device_id}")`. -/
def transfer_playback (c : SyncClient) (device_id : String) (force_play : Bool) : List FacadeCall × Except SpotifyError ActionSuccessResponse :=
  ([FacadeCall.transfer_playback device_id force_play],
   (AsyncSpotify.transfer_playback c device_id force_play).map
     fun _ => ⟨"success", "Playback transferred to device " ++ device_id⟩)

end server

/-- Registry operations the resolver exposes to the server lifecycle. -/
inductive RegistryEvent where
  | populate : RegistryEvent
  | clear : RegistryEvent
  deriving DecidableEq

/-- Registry events performed by `lifespan` (src/spotify_mcp/server.py,
lines 37-47) before its `yield`: the body consists only of bare string
literals and comments (`""" cache = get_cache() """`,
`""" await cache.populate() """`), which are no-op expressions, so no
population occurs; moreover `lifespan` is never registered with the
`FastMCP` constructor. -/
def lifespan_startup_events : List RegistryEvent :=
  []

/-- Registry events performed by `lifespan` after its `yield`: the only
statement is the bare string literal `""" await cache.clear_all() """`,
a no-op, so nothing is cleared. -/
def lifespan_shutdown_events : List RegistryEvent :=
  []

/-- A synchronous client whose every operation returns `res`
(`current_user_saved_tracks_contains` returns an empty list in the
success case), used to evaluate the theorems at concrete inputs. -/
def constClient (res : Except SpotifyError Json) : SyncClient where
  current_playback := fun _ _ => res
  devices := fun _ => res
  start_playback := fun _ _ _ _ _ => res
  pause_playback := fun _ => res
  add_to_queue := fun _ _ => res
  volume := fun _ _ => res
  transfer_playback := fun _ _ => res
  search := fun _ _ _ _ _ => res
  current_user_top_tracks := fun _ _ _ => res
  user_playlist_create := fun _ _ _ _ _ => res
  current_user_saved_tracks := fun _ _ _ => res
  current_user_saved_tracks_contains := fun _ => res.map fun _ => []
  current_user_saved_tracks_add := fun _ => res
  current_user_saved_tracks_delete := fun _ => res
  current_user_recently_played := fun _ _ _ => res
  episode := fun _ _ => res
  show_episodes := fun _ _ _ _ => res

/-- A concrete upstream failure used to evaluate error propagation. -/
def testErr : SpotifyError :=
  ⟨429, "rate limited"⟩

/-- Client whose operations all succeed with a `None` payload. -/
def okClient : SyncClient :=
  constClient (Except.ok Json.null)

/-- Client whose operations all raise `testErr`. -/
def errClient : SyncClient :=
  constClient (Except.error testErr)

/-- Client whose operations all succeed with an empty JSON object. -/
def emptyObjClient : SyncClient :=
  constClient (Except.ok (Json.obj []))

/-- Identity validators: every payload validates to itself. -/
def trivialValidators : Validators where
  PlaybackState := Except.ok
  DevicesResponse := Except.ok
  SearchResponse := Except.ok
  TopTracksResponse := Except.ok
  SimplifiedPlaylist := Except.ok
  SavedTracksResponse := Except.ok
  RecentlyPlayedResponse := Except.ok
  Episode := Except.ok
  ShowEpisodesResponse := Except.ok

/-- C1 (counterexample): the claim fails at the empty name.  After
`set_device("", "dev-1")` the mapping for the folded empty name is
recorded, and the lower-cased form of `""` equals the lower-cased form of
`""`, yet `resolve("")` returns an absent result instead of `"dev-1"`,
because `resolve` treats every falsy argument as unset. -/
theorem c1_case_insensitive_cex :
    pyLower "" = pyLower "" ∧
    (DeviceResolver.new.set_device "" "dev-1").resolve (some "") = none ∧
    (DeviceResolver.new.set_device "" "dev-1").resolve (some "") ≠ some "dev-1" :=
  ⟨rfl, by decide, by decide⟩

/-- C1 (amended): for every name `n`, identifier `i` and nonempty string
`m` whose lower-cased form equals the lower-cased form of `n`, after
`set_device(n, i)` the call `resolve(m)` returns `i`, in every prior
registry state. -/
theorem c1_case_insensitive (r : DeviceResolver) (n i m : String)
    (hm : m ≠ "") (h : pyLower m = pyLower n) :
    (r.set_device n i).resolve (some m) = some i := by
  simp only [DeviceResolver.resolve]
  rw [if_neg hm, set_device_map, if_pos h]

/-- C1 (witness): `set("Living Room", "dev-42")` then
`resolve("LIVING ROOM")` returns `"dev-42"`. -/
theorem c1_case_insensitive_witness :
    (DeviceResolver.new.set_device "Living Room" "dev-42").resolve (some "LIVING ROOM")
      = some "dev-42" :=
  c1_case_insensitive DeviceResolver.new "Living Room" "dev-42" "LIVING ROOM"
    (by decide) (by decide)

/-- C5: `resolve` returns an absent result (it is a total function, so it
never raises) whenever its argument is `None`, the empty string, or a
name for which no `set_device` call was recorded; the first two hold in
every registry state, the third in every registry built by a sequence of
`set_device` calls none of which matches the queried name. -/
theorem c5_resolve_absent :
    (∀ r : DeviceResolver, r.resolve none = none) ∧
    (∀ r : DeviceResolver, r.resolve (some "") = none) ∧
    (∀ (ops : List (String × String)) (n : String),
      (∀ p ∈ ops, pyLower p.1 ≠ pyLower n) →
      (applyOps ops DeviceResolver.new).resolve (some n) = none) := by
  refine ⟨fun r => rfl, fun r => by simp [DeviceResolver.resolve], fun ops n h => ?_⟩
  by_cases hn : n = ""
  · subst hn; simp [DeviceResolver.resolve]
  · simp only [DeviceResolver.resolve]
    rw [if_neg hn, applyOps_map, specLastWrite_eq_none ops (pyLower n) h]
    rfl

/-- C5 (witness): with only `set("Kitchen", "id1")` recorded,
`resolve("Office")` is absent. -/
theorem c5_resolve_absent_witness :
    (applyOps [("Kitchen", "id1")] DeviceResolver.new).resolve (some "Office") = none :=
  c5_resolve_absent.2.2 [("Kitchen", "id1")] "Office" (by decide)

/-- C6: after `invalidate()`, every name resolves to an absent result,
whatever the previous registry state was. -/
theorem c6_invalidate_clears (r : DeviceResolver) (n : Option String) :
    (r.invalidate).resolve n = none := by
  cases n with
  | none => rfl
  | some s => simp [DeviceResolver.resolve, DeviceResolver.invalidate]

/-- C7 (counterexample): the claim fails at the empty name.  For the call
sequence `set_device("", "dev-1")` the most recent write whose folded
name equals the folded query `""` carries the identifier `"dev-1"`, yet
`resolve("")` returns an absent result. -/
theorem c7_last_write_wins_cex :
    specLastWrite [("", "dev-1")] (pyLower "") = some "dev-1" ∧
    (applyOps [("", "dev-1")] DeviceResolver.new).resolve (some "") = none :=
  ⟨by decide, by decide⟩

/-- C7 (amended): for every sequence of `set_device` calls and every
nonempty name `n`, `resolve(n)` returns the identifier of the most recent
`set_device` whose case-folded name equals the case-folded `n` (absent if
there is none); and repeating `set_device` with identical arguments
leaves the registry state unchanged. -/
theorem c7_last_write_wins :
    (∀ (ops : List (String × String)) (n : String), n ≠ "" →
      (applyOps ops DeviceResolver.new).resolve (some n) = specLastWrite ops (pyLower n)) ∧
    (∀ (r : DeviceResolver) (name device_id : String),
      (r.set_device name device_id).set_device name device_id
        = r.set_device name device_id) := by
  constructor
  · intro ops n hn
    simp only [DeviceResolver.resolve]
    rw [if_neg hn, applyOps_map]
    cases specLastWrite ops (pyLower n) with
    | some v => rfl
    | none => rfl
  · intro r name device_id
    simp only [DeviceResolver.set_device]
    congr 1
    funext k
    by_cases hk : k = pyLower name
    · simp [hk]
    · simp [hk]

/-- C7 (witness): after `set("Kitchen", "id1")` then `set("KITCHEN", "id2")`,
`resolve("kitchen")` returns the later identifier `"id2"`. -/
theorem c7_last_write_wins_witness :
    (applyOps [("Kitchen", "id1"), ("KITCHEN", "id2")] DeviceResolver.new).resolve
      (some "kitchen") = some "id2" := by
  rw [c7_last_write_wins.1 [("Kitchen", "id1"), ("KITCHEN", "id2")] "kitchen" (by decide)]
  decide

/-- C8 (counterexample): the server's startup performs no registry
population and its shutdown performs no clearing — the `lifespan` body
consists solely of comment strings, so the claimed "populated once at
startup ... cleared on shutdown" lifecycle never happens. -/
theorem c8_lifecycle_cex :
    RegistryEvent.populate ∉ lifespan_startup_events ∧
    RegistryEvent.clear ∉ lifespan_shutdown_events :=
  ⟨List.not_mem_nil _, List.not_mem_nil _⟩

/-- C8 (amended): in every server run the `lifespan` hook performs no
registry operation at all: the device registry is never populated at
startup and never cleared at shutdown (the population and clear steps
exist only as commented-out code, and `lifespan` is not even registered
with the `FastMCP` constructor). -/
theorem c8_lifecycle :
    lifespan_startup_events = [] ∧ lifespan_shutdown_events = [] :=
  ⟨rfl, rfl⟩

/-- C2 (counterexample): with no `set` calls made, resolution of
`"Office"` yields nothing, yet the transfer endpoint still invokes the
upstream transfer operation (its facade-call trace is the one-element
transfer call, not empty) and answers with a transfer acknowledgment
`"Playback transferred to device Office"`, not a "not found" message. -/
theorem c2_transfer_not_found_cex :
    DeviceResolver.new.resolve (some "Office") = none ∧
    (server.transfer_playback okClient "Office" true).1
      = [FacadeCall.transfer_playback "Office" true] ∧
    (server.transfer_playback okClient "Office" true).1 ≠ [] ∧
    (server.transfer_playback okClient "Office" true).2
      = Except.ok ⟨"success", "Playback transferred to device Office"⟩ := by
  refine ⟨by decide, rfl, List.cons_ne_nil _ _, ?_⟩
  rfl

/-- C2 (amended): the transfer endpoint accepts a provider device id
directly and never consults the Device Resolver: on every call it
invokes the upstream transfer operation exactly once with its arguments
unchanged, answers `"Playback transferred to device {device_id}"` when
the upstream call succeeds, and propagates an upstream failure unchanged;
no "not found" path exists. -/
theorem c2_transfer_passthrough (c : SyncClient) (d : String) (f : Bool) :
    (server.transfer_playback c d f).1 = [FacadeCall.transfer_playback d f] ∧
    (∀ u, c.transfer_playback d f = Except.ok u →
      (server.transfer_playback c d f).2
        = Except.ok ⟨"success", "Playback transferred to device " ++ d⟩) ∧
    (∀ e, c.transfer_playback d f = Except.error e →
      (server.transfer_playback c d f).2 = Except.error e) := by
  refine ⟨rfl, fun u hu => ?_, fun e he => ?_⟩
  · simp [server.transfer_playback, AsyncSpotify.transfer_playback, toThread, hu, Except.map]
  · simp [server.transfer_playback, AsyncSpotify.transfer_playback, toThread, he, Except.map]

/-- C2 (witness): a concrete successful transfer call. -/
theorem c2_transfer_passthrough_witness :
    (server.transfer_playback okClient "dev-1" false).2
      = Except.ok ⟨"success", "Playback transferred to device dev-1"⟩ :=
  (c2_transfer_passthrough okClient "dev-1" false).2.1 Json.null rfl

/-- C3 (counterexample): the resolver would map `"Kitchen"` to `"id1"`,
yet the `start_playback` handler invoked with device name `"Kitchen"`
calls the Async Facade with `"Kitchen"` itself — no Device Resolver
lookup happens before the facade call, contradicting the claimed control
flow. -/
theorem c3_handler_resolution_cex :
    (DeviceResolver.new.set_device "Kitchen" "id1").resolve (some "Kitchen") = some "id1" ∧
    (server.start_playback okClient (some "Kitchen") none none none).1
      = [FacadeCall.start_playback (some "Kitchen") none none none none] ∧
    FacadeCall.start_playback (some "Kitchen") none none none none
      ≠ FacadeCall.start_playback (some "id1") none none none none := by
  refine ⟨by decide, rfl, ?_⟩
  intro h
  injection h with h1 h2 h3 h4 h5
  exact absurd h1 (by decide)

/-- C3 (amended): no tool handler consults the Device Resolver; every
device-targeting handler forwards its `device_id` argument unchanged to
the single Async Facade operation it invokes. -/
theorem c3_handlers_no_resolution (c : SyncClient) (d : Option String)
    (cu : Option String) (us : Option (List String)) (pm : Option Int)
    (u : String) (vp : Int) (d2 : String) (f : Bool) :
    (server.start_playback c d cu us pm).1 = [FacadeCall.start_playback d cu us none pm] ∧
    (server.pause_playback c d).1 = [FacadeCall.pause_playback d] ∧
    (server.add_to_queue c u d).1 = [FacadeCall.add_to_queue u d] ∧
    (server.set_volume c vp d).1 = [FacadeCall.volume vp d] ∧
    (server.transfer_playback c d2 f).1 = [FacadeCall.transfer_playback d2 f] :=
  ⟨rfl, rfl, rfl, rfl, rfl⟩

/-- C9: the `set_volume` endpoint performs no local range validation:
for every integer `volume_percent` (including values outside 0-100) it
forwards the value unchanged to the upstream volume operation, and
whenever that operation returns without raising it answers with status
`"success"` and message `"Volume set to {volume_percent}%"`. -/
theorem c9_set_volume_no_validation (c : SyncClient) (volume_percent : Int)
    (device_id : Option String) :
    (server.set_volume c volume_percent device_id).1
      = [FacadeCall.volume volume_percent device_id] ∧
    (∀ u, c.volume volume_percent device_id = Except.ok u →
      (server.set_volume c volume_percent device_id).2
        = Except.ok ⟨"success", "Volume set to " ++ toString volume_percent ++ "%"⟩) := by
  refine ⟨rfl, fun u hu => ?_⟩
  simp [server.set_volume, AsyncSpotify.volume, toThread, hu, Except.map]

/-- C9 (witness): the out-of-range value 150 is forwarded unchanged and
acknowledged as `"Volume set to 150%"`. -/
theorem c9_set_volume_no_validation_witness :
    (server.set_volume okClient 150 none).1 = [FacadeCall.volume 150 none] ∧
    (server.set_volume okClient 150 none).2
      = Except.ok ⟨"success", "Volume set to 150%"⟩ := by
  refine ⟨(c9_set_volume_no_validation okClient 150 none).1, ?_⟩
  rw [(c9_set_volume_no_validation okClient 150 none).2 Json.null rfl]
  rfl

/-- C10: the `get_current_playback` endpoint returns an absent result
(`None`) exactly when the upstream client's `current_playback` result is
falsy — covering both a null response and an empty payload — and
otherwise returns the response validated into a `PlaybackState`;
absence is signalled by a successful `None`, never by an error, and an
upstream failure propagates as the failure itself. -/
theorem c10_current_playback_absent (V : Validators) (c : SyncClient)
    (market : Option String) :
    (∀ r, c.current_playback market none = Except.ok r → r.isTruthy = false →
      server.get_current_playback V c market = Except.ok none) ∧
    (∀ r p, c.current_playback market none = Except.ok r → r.isTruthy = true →
      V.PlaybackState r = Except.ok p →
      server.get_current_playback V c market = Except.ok (some p)) ∧
    (∀ e, c.current_playback market none = Except.error e →
      server.get_current_playback V c market = Except.error e) ∧
    (server.get_current_playback V c market = Except.ok none →
      ∃ r, c.current_playback market none = Except.ok r ∧ r.isTruthy = false) := by
  refine ⟨fun r hr htr => ?_, fun r p hr htr hv => ?_, fun e he => ?_, fun hnone => ?_⟩
  · simp [server.get_current_playback, AsyncSpotify.current_playback, toThread, hr, htr,
      Except.bind]
  · simp [server.get_current_playback, AsyncSpotify.current_playback, toThread, hr, htr, hv,
      Except.bind, Except.map]
  · simp [server.get_current_playback, AsyncSpotify.current_playback, toThread, he,
      Except.bind]
  · cases hc : c.current_playback market none with
    | error e =>
      rw [server.get_current_playback, AsyncSpotify.current_playback] at hnone
      simp [toThread, hc, Except.bind] at hnone
    | ok r =>
      cases htr : r.isTruthy with
      | false => exact ⟨r, rfl, htr⟩
      | true =>
        rw [server.get_current_playback, AsyncSpotify.current_playback] at hnone
        simp [toThread, hc, htr, Except.bind] at hnone
        cases hv : V.PlaybackState r with
        | error e => rw [hv] at hnone; simp [Except.map] at hnone
        | ok p => rw [hv] at hnone; simp [Except.map] at hnone

/-- C10 (witness): a null response and an empty-object response both
yield a successful absent result. -/
theorem c10_current_playback_absent_witness :
    server.get_current_playback trivialValidators okClient none = Except.ok none ∧
    server.get_current_playback trivialValidators emptyObjClient none = Except.ok none :=
  ⟨(c10_current_playback_absent trivialValidators okClient none).1 Json.null rfl rfl,
   (c10_current_playback_absent trivialValidators emptyObjClient none).1 (Json.obj []) rfl rfl⟩

/-- C4: Async Facade round-trip fidelity.  For every explicitly wrapped
provider operation and every choice of parameters, the facade method
returns a result structurally equivalent to the underlying synchronous
client operation called with the same parameters (after schema
validation, with `current_playback` additionally mapping a falsy payload
to an absent result, exactly as the wrapped code does), and propagates
any underlying failure unchanged. -/
theorem c4_facade_roundtrip (V : Validators) (c : SyncClient) :
    (∀ m a e, c.current_playback m a = Except.error e →
      AsyncSpotify.current_playback V c m a = Except.error e) ∧
    (∀ m a r, c.current_playback m a = Except.ok r →
      AsyncSpotify.current_playback V c m a
        = if r.isTruthy then (V.PlaybackState r).map some else Except.ok none) ∧
    (∀ e, c.devices () = Except.error e →
      AsyncSpotify.devices V c = Except.error e) ∧
    (∀ r, c.devices () = Except.ok r →
      AsyncSpotify.devices V c = V.DevicesResponse r) ∧
    (∀ d cu us o pm e, c.start_playback d cu us o pm = Except.error e →
      AsyncSpotify.start_playback c d cu us o pm = Except.error e) ∧
    (∀ d cu us o pm r, c.start_playback d cu us o pm = Except.ok r →
      AsyncSpotify.start_playback c d cu us o pm = Except.ok r) ∧
    (∀ u d e, c.add_to_queue u d = Except.error e →
      AsyncSpotify.add_to_queue c u d = Except.error e) ∧
    (∀ u d r, c.add_to_queue u d = Except.ok r →
      AsyncSpotify.add_to_queue c u d = Except.ok r) ∧
    (∀ vp d e, c.volume vp d = Except.error e →
      AsyncSpotify.volume c vp d = Except.error e) ∧
    (∀ vp d r, c.volume vp d = Except.ok r →
      AsyncSpotify.volume c vp d = Except.ok r) ∧
    (∀ d f e, c.transfer_playback d f = Except.error e →
      AsyncSpotify.transfer_playback c d f = Except.error e) ∧
    (∀ d f r, c.transfer_playback d f = Except.ok r →
      AsyncSpotify.transfer_playback c d f = Except.ok r) ∧
    (∀ q l o t m e, c.search q l o t m = Except.error e →
      AsyncSpotify.search V c q l o t m = Except.error e) ∧
    (∀ q l o t m r, c.search q l o t m = Except.ok r →
      AsyncSpotify.search V c q l o t m = V.SearchResponse r) ∧
    (∀ l o t e, c.current_user_top_tracks l o t = Except.error e →
      AsyncSpotify.current_user_top_tracks V c l o t = Except.error e) ∧
    (∀ l o t r, c.current_user_top_tracks l o t = Except.ok r →
      AsyncSpotify.current_user_top_tracks V c l o t = V.TopTracksResponse r) ∧
    (∀ u n p cl d e, c.user_playlist_create u n p cl d = Except.error e →
      AsyncSpotify.user_playlist_create V c u n p cl d = Except.error e) ∧
    (∀ u n p cl d r, c.user_playlist_create u n p cl d = Except.ok r →
      AsyncSpotify.user_playlist_create V c u n p cl d = V.SimplifiedPlaylist r) ∧
    (∀ l o m e, c.current_user_saved_tracks l o m = Except.error e →
      AsyncSpotify.current_user_saved_tracks V c l o m = Except.error e) ∧
    (∀ l o m r, c.current_user_saved_tracks l o m = Except.ok r →
      AsyncSpotify.current_user_saved_tracks V c l o m = V.SavedTracksResponse r) ∧
    (∀ t e, c.current_user_saved_tracks_contains t = Except.error e →
      AsyncSpotify.current_user_saved_tracks_contains c t = Except.error e) ∧
    (∀ t r, c.current_user_saved_tracks_contains t = Except.ok r →
      AsyncSpotify.current_user_saved_tracks_contains c t = Except.ok r) ∧
    (∀ t e, c.current_user_saved_tracks_add t = Except.error e →
      AsyncSpotify.current_user_saved_tracks_add c t = Except.error e) ∧
    (∀ t r, c.current_user_saved_tracks_add t = Except.ok r →
      AsyncSpotify.current_user_saved_tracks_add c t = Except.ok r) ∧
    (∀ t e, c.current_user_saved_tracks_delete t = Except.error e →
      AsyncSpotify.current_user_saved_tracks_delete c t = Except.error e) ∧
    (∀ t r, c.current_user_saved_tracks_delete t = Except.ok r →
      AsyncSpotify.current_user_saved_tracks_delete c t = Except.ok r) ∧
    (∀ l a b e, c.current_user_recently_played l a b = Except.error e →
      AsyncSpotify.current_user_recently_played V c l a b = Except.error e) ∧
    (∀ l a b r, c.current_user_recently_played l a b = Except.ok r →
      AsyncSpotify.current_user_recently_played V c l a b = V.RecentlyPlayedResponse r) ∧
    (∀ i m e, c.episode i m = Except.error e →
      AsyncSpotify.episode V c i m = Except.error e) ∧
    (∀ i m r, c.episode i m = Except.ok r →
      AsyncSpotify.episode V c i m = V.Episode r) ∧
    (∀ s l o m e, c.show_episodes s l o m = Except.error e →
      AsyncSpotify.show_episodes V c s l o m = Except.error e) ∧
    (∀ s l o m r, c.show_episodes s l o m = Except.ok r →
      AsyncSpotify.show_episodes V c s l o m = V.ShowEpisodesResponse r) :=
  ⟨fun m a e h => by simp [AsyncSpotify.current_playback, toThread, h, Except.bind],
   fun m a r h => by simp [AsyncSpotify.current_playback, toThread, h, Except.bind],
   fun e h => by simp [AsyncSpotify.devices, toThread, h, Except.bind],
   fun r h => by simp [AsyncSpotify.devices, toThread, h, Except.bind],
   fun d cu us o pm e h => h,
   fun d cu us o pm r h => h,
   fun u d e h => h,
   fun u d r h => h,
   fun vp d e h => h,
   fun vp d r h => h,
   fun d f e h => h,
   fun d f r h => h,
   fun q l o t m e h => by simp [AsyncSpotify.search, toThread, h, Except.bind],
   fun q l o t m r h => by simp [AsyncSpotify.search, toThread, h, Except.bind],
   fun l o t e h => by simp [AsyncSpotify.current_user_top_tracks, toThread, h, Except.bind],
   fun l o t r h => by simp [AsyncSpotify.current_user_top_tracks, toThread, h, Except.bind],
   fun u n p cl d e h => by simp [AsyncSpotify.user_playlist_create, toThread, h, Except.bind],
   fun u n p cl d r h => by simp [AsyncSpotify.user_playlist_create, toThread, h, Except.bind],
   fun l o m e h => by simp [AsyncSpotify.current_user_saved_tracks, toThread, h, Except.bind],
   fun l o m r h => by simp [AsyncSpotify.current_user_saved_tracks, toThread, h, Except.bind],
   fun t e h => h,
   fun t r h => h,
   fun t e h => h,
   fun t r h => h,
   fun t e h => h,
   fun t r h => h,
   fun l a b e h => by simp [AsyncSpotify.current_user_recently_played, toThread, h, Except.bind],
   fun l a b r h => by simp [AsyncSpotify.current_user_recently_played, toThread, h, Except.bind],
   fun i m e h => by simp [AsyncSpotify.episode, toThread, h, Except.bind],
   fun i m r h => by simp [AsyncSpotify.episode, toThread, h, Except.bind],
   fun s l o m e h => by simp [AsyncSpotify.show_episodes, toThread, h, Except.bind],
   fun s l o m r h => by simp [AsyncSpotify.show_episodes, toThread, h, Except.bind]⟩

/-- C4 (witness): a raised upstream failure in `devices` propagates
unchanged, and a successful `search` returns the validated payload. -/
theorem c4_facade_roundtrip_witness :
    AsyncSpotify.devices trivialValidators errClient = Except.error testErr ∧
    AsyncSpotify.search trivialValidators okClient "q" 10 0 "track" none
      = Except.ok Json.null := by
  refine ⟨(c4_facade_roundtrip trivialValidators errClient).2.2.1 testErr rfl, ?_⟩
  obtain ⟨-, -, -, -, -, -, -, -, -, -, -, -, -, hok, -⟩ :=
    c4_facade_roundtrip trivialValidators okClient
  exact (hok "q" 10 0 "track" none Json.null rfl).trans rfl
